import Mathlib

/-!
Verification of the data-harvesting pipeline in `src/main.py` of the
FireflAIs repository.  The Python code is shallowly embedded: JSON values
that the code reads through `dict.get` with defaults are modelled with
`Option` fields (`none` = key absent), the HTTP transport is a function
from the index of the issued request to its outcome, the while-loop of
`fetch_and_append_to_csv` is run on explicit fuel, and the per-task CSV
file is a list of tagged lines.  Exceptions that the code does not catch
(the `IndexError` from `coordinates[1]`) are modelled with `Except`.
-/

/-- `species_detail` sub-object of a raw observation: the code reads
`name` and `scientific_name` through `.get`, so each is `Option`. -/
structure SpeciesDetail where
  name : Option String
  scientific_name : Option String
deriving DecidableEq

/-- Default used by `obs.get('species_detail', {})` when the key is absent:
an empty dict, whose `.get` lookups all yield `None`. -/
instance : Inhabited SpeciesDetail := ⟨⟨none, none⟩⟩

/-- The value found under `point['coordinates']`: the key can be absent,
present but JSON `null`, or a list of (possibly null) numbers.  Numeric
coordinate values are carried opaquely as `Int`; the code never computes
with them. -/
inductive CoordField where
  | absent
  | null
  | list (l : List (Option Int))
deriving DecidableEq

/-- `point` sub-object of a raw observation. -/
structure Point where
  coordinates : CoordField
deriving DecidableEq

/-- Default used by `obs.get('point', {})`: an empty dict, in which the
`coordinates` key is absent. -/
instance : Inhabited Point := ⟨⟨CoordField.absent⟩⟩

/-- `location_detail` / `user_detail` sub-objects: only `name` is read. -/
structure NameDetail where
  name : Option String
deriving DecidableEq

instance : Inhabited NameDetail := ⟨⟨none⟩⟩

/-- One raw observation object from the API response's `results` array.
Every field the code reads via `.get` is `Option`; `none` means the key
is absent from the JSON object. -/
structure RawObs where
  id : Option Int
  species_detail : Option SpeciesDetail
  date : Option String
  time : Option String
  number : Option Int
  point : Option Point
  location_detail : Option NameDetail
  user_detail : Option NameDetail
deriving DecidableEq

/-- The normalized output record, with exactly the columns written by the
code: id, common_name, scientific_name, date, time, count, longitude,
latitude, location, observer. -/
structure ObservationRecord where
  id : Option Int
  common_name : Option String
  scientific_name : Option String
  date : Option String
  time : Option String
  count : Option Int
  longitude : Option Int
  latitude : Option Int
  location : Option String
  observer : Option String
deriving DecidableEq

/-- The value of `point.get('coordinates', [None, None])`: absent key
gives the default pair of nulls, a JSON null gives Python `None`
(modelled `none`), a list gives the list. -/
def coordsValue (p : Point) : Option (List (Option Int)) :=
  match p.coordinates with
  | CoordField.absent => some [none, none]
  | CoordField.null => none
  | CoordField.list l => some l

/-- Python truthiness of the coordinates value: `None` and `[]` are
falsy, a non-empty list is truthy. -/
def coordsTruthy : Option (List (Option Int)) → Bool
  | none => false
  | some [] => false
  | some (_ :: _) => true

/-- Python list indexing `l[i]`, which raises `IndexError` when out of
bounds; the stored element may itself be null. -/
def listIndex (l : List (Option Int)) (i : Nat) : Except Unit (Option Int) :=
  match l[i]? with
  | some v => Except.ok v
  | none => Except.error ()

/-- Normalization of one raw observation, mirroring the dict built in the
loop body of `fetch_and_append_to_csv` (src/main.py lines 92-108).
`Except.error` models an uncaught `IndexError` from `coordinates[0]` /
`coordinates[1]`. -/
def normalizeObs (obs : RawObs) : Except Unit ObservationRecord := do
  let species_detail := obs.species_detail.getD default
  let point := obs.point.getD default
  let coordinates := coordsValue point
  let location_detail := obs.location_detail.getD default
  let user_detail := obs.user_detail.getD default
  let longitude ← if coordsTruthy coordinates then
      listIndex (coordinates.getD []) 0 else Except.ok none
  let latitude ← if coordsTruthy coordinates then
      listIndex (coordinates.getD []) 1 else Except.ok none
  Except.ok {
    id := obs.id
    common_name := species_detail.name
    scientific_name := species_detail.scientific_name
    date := obs.date
    time := obs.time
    count := obs.number
    longitude := longitude
    latitude := latitude
    location := location_detail.name
    observer := user_detail.name }

/-- Building `parsed_data` for a whole page: the first record that raises
aborts the page (nothing of it is kept). -/
def parsePage : List RawObs → Except Unit (List ObservationRecord)
  | [] => Except.ok []
  | obs :: rest => do
      let r ← normalizeObs obs
      let rs ← parsePage rest
      Except.ok (r :: rs)

/-- The body of an HTTP 2xx response: either its JSON fails to decode
(`response.json()` raises `ValueError`) or it decodes to an object with
a `results` array (`data.get('results', [])`, so an object without the
key gives `[]`) and a `next` field (`data.get('next')`, absent or JSON
null both give `none`). -/
inductive Body where
  | malformed
  | json (results : List RawObs) (next : Option Unit)
deriving DecidableEq

/-- Outcome of one `requests.get` call followed by `raise_for_status()`:
success with a body, an HTTPError carrying status 429, an HTTPError with
any other status, or another `RequestException` (network error). -/
inductive HTTPOutcome where
  | success (body : Body)
  | rateLimited
  | httpError
  | netError
deriving DecidableEq

/-- Result of the retry for-loop: the final `response` (its body, or
`none` when the loop set `response = None`), the number of requests it
issued, and the durations of the `time.sleep` calls it performed. -/
structure AttemptResult where
  response : Option Body
  attempts : Nat
  sleeps : List Nat
deriving DecidableEq

/-- The body of `for attempt in range(3)` (src/main.py lines 56-73),
entered at iteration `attempt` with `remaining` iterations left.  The
transport `api` maps the global index of each issued request to its
outcome; this page-fetch has already issued `base` requests before it. -/
def retryGo (api : Nat → HTTPOutcome) (base : Nat) : Nat → Nat → AttemptResult
  | _, 0 => ⟨none, 0, []⟩
  | attempt, remaining + 1 =>
    match api (base + attempt) with
    | HTTPOutcome.success b => ⟨some b, attempt + 1, []⟩
    | HTTPOutcome.rateLimited =>
        if attempt < 2 then
          let r := retryGo api base (attempt + 1) remaining
          ⟨r.response, r.attempts, 2 ^ attempt :: r.sleeps⟩
        else ⟨none, attempt + 1, []⟩
    | HTTPOutcome.httpError => ⟨none, attempt + 1, []⟩
    | HTTPOutcome.netError => ⟨none, attempt + 1, []⟩

/-- One full run of the retry loop for a single page request:
`for attempt in range(3)` starting at attempt 0. -/
def retryRequest (api : Nat → HTTPOutcome) (base : Nat) : AttemptResult :=
  retryGo api base 0 3

/-- One line of the per-task CSV file: the header row or a data row. -/
inductive FileLine where
  | header
  | row (r : ObservationRecord)
deriving DecidableEq

/-- `df.to_csv(filename, mode='a', index=False, header=write_header)`:
append the header (when requested) followed by the records. -/
def writeCsv (file : List FileLine) (write_header : Bool)
    (records : List ObservationRecord) : List FileLine :=
  file ++ (if write_header then [FileLine.header] else []) ++
    records.map FileLine.row

/-- Number of header lines in a file. -/
def countHeaders (file : List FileLine) : Nat :=
  file.countP (fun l => match l with | FileLine.header => true | _ => false)

/-- The state threaded through the while-loop of
`fetch_and_append_to_csv`: the loop variables of the Python code
(`offset`, `total_fetched`, `write_header`, the file contents) plus
instrumentation recording what the run did (`reqCount` counts every
issued HTTP request, `sleeps` the backoff waits, `offsetsRequested` the
`offset` parameter of each page request round). -/
structure FetchState where
  reqCount : Nat
  offset : Nat
  total_fetched : Nat
  write_header : Bool
  file : List FileLine
  sleeps : List Nat
  offsetsRequested : List Nat
deriving DecidableEq

/-- Outcome of one iteration of the while-loop: `stop` is a `break`,
`crash` is an uncaught exception while building `parsed_data`, and
`more s k` continues with the loop state `s` after a page that returned
`k` records. -/
inductive StepResult where
  | stop (st : FetchState)
  | crash (st : FetchState)
  | more (st : FetchState) (returned : Nat)
deriving DecidableEq

/-- One iteration of `while True` in `fetch_and_append_to_csv`
(src/main.py lines 54-116): run the retry loop, then branch exactly as
the code does: `response is None` → break; JSON decode error → break;
empty `results` → break; then count, normalize (may raise), append to
the CSV, and break unless `next` is present, else advance the offset. -/
def pageStep (api : Nat → HTTPOutcome) (st : FetchState) : StepResult :=
  let r := retryRequest api st.reqCount
  let st1 : FetchState :=
    { st with reqCount := st.reqCount + r.attempts,
              sleeps := st.sleeps ++ r.sleeps,
              offsetsRequested := st.offsetsRequested ++ [st.offset] }
  match r.response with
  | none => StepResult.stop st1
  | some Body.malformed => StepResult.stop st1
  | some (Body.json results next) =>
    match results with
    | [] => StepResult.stop st1
    | _ :: _ =>
      let st2 : FetchState :=
        { st1 with total_fetched := st1.total_fetched + results.length }
      match parsePage results with
      | Except.error _ => StepResult.crash st2
      | Except.ok records =>
        let st3 : FetchState :=
          { st2 with file := writeCsv st2.file st2.write_header records,
                     write_header := false }
        match next with
        | none => StepResult.stop st3
        | some _ =>
            StepResult.more { st3 with offset := st3.offset + results.length }
              results.length

/-- Result of a whole task fetch: the loop broke out (`done`), an
exception escaped the function (`crashed`), or the supplied fuel ran out
before the loop finished (`outOfFuel`). -/
inductive FetchResult where
  | done (st : FetchState)
  | crashed (st : FetchState)
  | outOfFuel (st : FetchState)
deriving DecidableEq

/-- The `while True` loop, run on fuel. -/
def fetchLoop (api : Nat → HTTPOutcome) : Nat → FetchState → FetchResult
  | 0, st => FetchResult.outOfFuel st
  | fuel + 1, st =>
    match pageStep api st with
    | StepResult.stop st' => FetchResult.done st'
    | StepResult.crash st' => FetchResult.crashed st'
    | StepResult.more st' _ => fetchLoop api fuel st'

/-- Initial loop state: `params['offset'] = 0`, `total_fetched = 0`, and
`write_header = not os.path.exists(filename)`; `existing` is the file's
prior contents when it already exists. -/
def initState (existing : Option (List FileLine)) : FetchState :=
  ⟨0, 0, 0, existing.isNone, existing.getD [], [], []⟩

/-- `fetch_and_append_to_csv` for one task, against transport `api`,
with the target file's prior contents `existing`. -/
def fetch_and_append_to_csv (api : Nat → HTTPOutcome)
    (existing : Option (List FileLine)) (fuel : Nat) : FetchResult :=
  fetchLoop api fuel (initState existing)

/-- The final loop state of a task fetch, however it ended. -/
def finalState : FetchResult → FetchState
  | FetchResult.done st => st
  | FetchResult.crashed st => st
  | FetchResult.outOfFuel st => st

/-- What a completed task hands back to its caller and leaves on disk:
the function's return value `total_fetched` and the file contents.
`none` when the function raised instead of returning. -/
def fetchOutput : FetchResult → Option (Nat × List FileLine)
  | FetchResult.done st => some (st.total_fetched, st.file)
  | FetchResult.crashed _ => none
  | FetchResult.outOfFuel _ => none

/-- The fixed ordered species-group id list (src/main.py lines 10-20). -/
def INSECT_GROUP_IDS : List Nat := [4, 8, 5, 14, 17, 18, 16, 15, 6]

/-- The loop of `process_day` over the groups of one day: each group gets
its own fresh file (the startup cleanup removed prior ones), the returned
counts are summed, and an exception escaping `fetch_and_append_to_csv`
(or exhausted fuel) aborts the rest of the day (`none`).  `apis g` is the
transport serving group `g`. -/
def processGroups (apis : Nat → Nat → HTTPOutcome) (fuel : Nat) :
    List Nat → Option Nat
  | [] => some 0
  | g :: gs =>
    match fetch_and_append_to_csv (apis g) none fuel with
    | FetchResult.done st =>
        (processGroups apis fuel gs).map (fun t => st.total_fetched + t)
    | FetchResult.crashed _ => none
    | FetchResult.outOfFuel _ => none

/-- `process_day` (src/main.py lines 121-134): total observation count
for the day, or `none` when a fetch raised. -/
def process_day (apis : Nat → Nat → HTTPOutcome) (fuel : Nat) : Option Nat :=
  processGroups apis fuel INSECT_GROUP_IDS

/-- `dates_to_process` (src/main.py line 143): days are numbered by an
abstract day count, `start + i` for `i` in `range(n)` where
`n = (today - start_date).days`. -/
def enumDates (start n : Nat) : List Nat :=
  (List.range n).map (fun i => start + i)

/-- The full set of (day, group) tasks of one run, in the order the run
issues them: date-major (outer loop over days), then the fixed group
order within each day. -/
def enumTasks (start n : Nat) : List (Nat × Nat) :=
  (enumDates start n).flatMap (fun d => INSECT_GROUP_IDS.map (fun g => (d, g)))

/-- `strftime`-style zero-padded decimal digit. -/
def digitChar (n : Nat) : Char := Char.ofNat (48 + n % 10)

/-- Two-digit zero-padded field (`%m`, `%d`). -/
def pad2 (n : Nat) : List Char := [digitChar (n / 10), digitChar n]

/-- Four-digit zero-padded field (`%Y`). -/
def pad4 (n : Nat) : List Char :=
  [digitChar (n / 1000), digitChar (n / 100), digitChar (n / 10), digitChar n]

/-- A calendar date, only as far as filename formatting needs it. -/
structure Date where
  year : Nat
  month : Nat
  day : Nat
deriving DecidableEq

/-- `target_date.strftime("%Y-%m-%d")` as a character list. -/
def formatDate (d : Date) : List Char :=
  pad4 d.year ++ '-' :: pad2 d.month ++ '-' :: pad2 d.day

/-- `f'observations_{target_date.strftime("%Y-%m-%d")}_{group_id}.csv'`
(src/main.py line 130). -/
def taskFilename (d : Date) (g : Nat) : List Char :=
  "observations_".toList ++ formatDate d ++ '_' :: (Nat.repr g).toList ++
    ".csv".toList

/-- Whether a filename matches the cleanup glob `observations_*.csv`
(src/main.py line 138): long enough to carry both affixes, starts with
`observations_` and ends with `.csv`. -/
def matchesGlob (l : List Char) : Bool :=
  decide (17 ≤ l.length) && l.take 13 == "observations_".toList &&
    l.drop (l.length - 4) == ".csv".toList

/-- The startup cleanup (src/main.py lines 137-139): every file matching
the glob is removed; the survivors are returned. -/
def cleanupFiles (files : List (List Char)) : List (List Char) :=
  files.filter (fun f => !(matchesGlob f))

/-- A fully populated raw observation used by the mock transports. -/
def sampleObs : RawObs where
  id := some 1
  species_detail := some ⟨some "Aglais io", some "Aglais io"⟩
  date := some "2025-06-01"
  time := some "12:00"
  number := some 2
  point := some ⟨CoordField.list [some 4, some 52]⟩
  location_detail := some ⟨some "Amsterdam"⟩
  user_detail := some ⟨some "waarnemer"⟩

/-- The normalization of `sampleObs`. -/
def sampleRec : ObservationRecord where
  id := some 1
  common_name := some "Aglais io"
  scientific_name := some "Aglais io"
  date := some "2025-06-01"
  time := some "12:00"
  count := some 2
  longitude := some 4
  latitude := some 52
  location := some "Amsterdam"
  observer := some "waarnemer"

/-- A full page of 100 records, the page size of the reference behavior. -/
def page100 : List RawObs := List.replicate 100 sampleObs

/-- Mock API of the pagination scenario: two pages of 100 records with a
`next` link, then a page with an empty `results` array. -/
def mockTwoPages : Nat → HTTPOutcome
  | 0 => HTTPOutcome.success (Body.json page100 (some ()))
  | 1 => HTTPOutcome.success (Body.json page100 (some ()))
  | _ => HTTPOutcome.success (Body.json [] none)

/-- Mock API whose first page is successful and non-empty but carries no
`next` indicator; any further request would fail. -/
def mockOnePageNextAbsent : Nat → HTTPOutcome
  | 0 => HTTPOutcome.success (Body.json page100 none)
  | _ => HTTPOutcome.netError

/-- Mock API: first page succeeds with 100 records, second page fails
terminally (non-429 HTTP error). -/
def mockTerminalPage2 : Nat → HTTPOutcome
  | 0 => HTTPOutcome.success (Body.json page100 (some ()))
  | _ => HTTPOutcome.httpError

/-- Mock API: first page succeeds with 100 records, second page returns a
body whose JSON fails to decode. -/
def mockMalformedPage2 : Nat → HTTPOutcome
  | 0 => HTTPOutcome.success (Body.json page100 (some ()))
  | _ => HTTPOutcome.success Body.malformed

/-- Mock API answering every request with an empty results page. -/
def mockEmpty : Nat → HTTPOutcome
  | _ => HTTPOutcome.success (Body.json [] none)

set_option maxRecDepth 10000

/-- When a loop iteration continues after a page that returned `k`
records, the offset has advanced by exactly `k`. -/
theorem pageStep_more_offset (api : Nat → HTTPOutcome) (st st' : FetchState)
    (k : Nat) (h : pageStep api st = StepResult.more st' k) :
    st'.offset = st.offset + k := by
  unfold pageStep at h
  cases hresp : (retryRequest api st.reqCount).response with
  | none => simp [hresp] at h
  | some b =>
    cases b with
    | malformed => simp [hresp] at h
    | json results next =>
      cases results with
      | nil => simp [hresp] at h
      | cons a rest =>
        cases hp : parsePage (a :: rest) with
        | error e => simp [hresp, hp] at h
        | ok recs =>
          cases next with
          | none => simp [hresp, hp] at h
          | some u =>
            simp [hresp, hp] at h
            obtain ⟨h1, h2⟩ := h
            subst h1
            simp [← h2]

/-- C1: the pagination loop starts at offset 0 and, after each successful
non-empty page that continues, advances the offset by exactly the number
of records actually returned; against a mock API returning two pages of
100 records and then an empty page it yields exactly 200 normalized
records, issues exactly three requests, and stops after the empty page
with no extra request; a successful page whose `next` indicator is
absent also terminates the loop (one request, 100 records). -/
theorem C1_pagination_cursor :
    (∀ existing, (initState existing).offset = 0) ∧
    (∀ api st st' k, pageStep api st = StepResult.more st' k →
      st'.offset = st.offset + k) ∧
    fetch_and_append_to_csv mockTwoPages none 5 =
      FetchResult.done ⟨3, 200, 200, false,
        FileLine.header :: List.replicate 200 (FileLine.row sampleRec),
        [], [0, 100, 200]⟩ ∧
    fetch_and_append_to_csv mockOnePageNextAbsent none 5 =
      FetchResult.done ⟨1, 0, 100, false,
        FileLine.header :: List.replicate 100 (FileLine.row sampleRec),
        [], [0]⟩ :=
  ⟨fun _ => rfl, pageStep_more_offset, by rfl, by rfl⟩

/-- Witness for C1: the implication of the second conjunct, discharged on
the first page of the two-page mock. -/
theorem C1_pagination_cursor_witness :
    ∃ st', pageStep mockTwoPages (initState none) = StepResult.more st' 100 ∧
      st'.offset = (initState none).offset + 100 := by
  refine ⟨⟨1, 100, 100, false,
    FileLine.header :: List.replicate 100 (FileLine.row sampleRec),
    [], [0]⟩, by rfl, ?_⟩
  exact C1_pagination_cursor.2.1 mockTwoPages (initState none) _ 100 (by rfl)

/-- C2: when every attempt of one page fetch answers HTTP 429, the retry
loop issues exactly 3 attempts, sleeping `2^attempt` time units after the
first and second failures (delays 1 then 2), then gives up: the
pagination loop breaks with the file and total of the previously fetched
pages unchanged, having issued exactly 3 requests and no more. -/
theorem C2_retry_exhaustion :
    ∀ api base,
      api base = HTTPOutcome.rateLimited →
      api (base + 1) = HTTPOutcome.rateLimited →
      api (base + 2) = HTTPOutcome.rateLimited →
      retryRequest api base = ⟨none, 3, [1, 2]⟩ ∧
      (∀ st fuel, st.reqCount = base → 0 < fuel →
        ∃ st', fetchLoop api fuel st = FetchResult.done st' ∧
          st'.file = st.file ∧ st'.total_fetched = st.total_fetched ∧
          st'.reqCount = base + 3 ∧ st'.sleeps = st.sleeps ++ [1, 2]) := by
  intro api base h0 h1 h2
  have hr : retryRequest api base = ⟨none, 3, [1, 2]⟩ := by
    simp [retryRequest, retryGo, h0, h1, h2]
  refine ⟨hr, ?_⟩
  intro st fuel hst hf
  cases fuel with
  | zero => omega
  | succ f =>
    have hstep : fetchLoop api (f + 1) st = FetchResult.done
        { st with reqCount := st.reqCount + 3,
                  sleeps := st.sleeps ++ [1, 2],
                  offsetsRequested := st.offsetsRequested ++ [st.offset] } := by
      simp [fetchLoop, pageStep, hst, hr]
    exact ⟨_, hstep, rfl, rfl, by simp [hst], rfl⟩

/-- Witness for C2: an always-rate-limited transport, starting a fresh
task with fuel 1. -/
theorem C2_retry_exhaustion_witness :
    retryRequest (fun _ => HTTPOutcome.rateLimited) 0 = ⟨none, 3, [1, 2]⟩ ∧
    ∃ st', fetchLoop (fun _ => HTTPOutcome.rateLimited) 1 (initState none) =
        FetchResult.done st' ∧
      st'.file = (initState none).file ∧
      st'.total_fetched = (initState none).total_fetched ∧
      st'.reqCount = 0 + 3 ∧
      st'.sleeps = (initState none).sleeps ++ [1, 2] := by
  have h := C2_retry_exhaustion (fun _ => HTTPOutcome.rateLimited) 0 rfl rfl rfl
  exact ⟨h.1, h.2 (initState none) 1 rfl (by decide)⟩

/-- C3: a first attempt failing for any reason other than HTTP 429 (a
non-2xx/non-429 status or a network error) is not retried: the retry
loop gives up after exactly that one attempt with no backoff sleep, and
the pagination loop breaks, issuing no further page requests and keeping
the previously fetched file and total unchanged. -/
theorem C3_no_retry_on_terminal :
    ∀ api base,
      (api base = HTTPOutcome.httpError ∨ api base = HTTPOutcome.netError) →
      retryRequest api base = ⟨none, 1, []⟩ ∧
      (∀ st fuel, st.reqCount = base → 0 < fuel →
        ∃ st', fetchLoop api fuel st = FetchResult.done st' ∧
          st'.file = st.file ∧ st'.total_fetched = st.total_fetched ∧
          st'.reqCount = base + 1 ∧ st'.sleeps = st.sleeps) := by
  intro api base h0
  have hr : retryRequest api base = ⟨none, 1, []⟩ := by
    cases h0 with
    | inl h => simp [retryRequest, retryGo, h]
    | inr h => simp [retryRequest, retryGo, h]
  refine ⟨hr, ?_⟩
  intro st fuel hst hf
  cases fuel with
  | zero => omega
  | succ f =>
    have hstep : fetchLoop api (f + 1) st = FetchResult.done
        { st with reqCount := st.reqCount + 1,
                  sleeps := st.sleeps ++ [],
                  offsetsRequested := st.offsetsRequested ++ [st.offset] } := by
      simp [fetchLoop, pageStep, hst, hr]
    exact ⟨_, hstep, rfl, rfl, by simp [hst], by simp⟩

/-- Projection of the state carried by a loop-step outcome. -/
def stepState : StepResult → FetchState
  | StepResult.stop st => st
  | StepResult.crash st => st
  | StepResult.more st _ => st

/-- One loop iteration only ever appends to the file. -/
theorem pageStep_file_extends (api : Nat → HTTPOutcome) (st : FetchState) :
    ∃ t, (stepState (pageStep api st)).file = st.file ++ t := by
  unfold pageStep
  cases hresp : (retryRequest api st.reqCount).response with
  | none => exact ⟨[], by simp [stepState, hresp]⟩
  | some b =>
    cases b with
    | malformed => exact ⟨[], by simp [stepState, hresp]⟩
    | json results next =>
      cases results with
      | nil => exact ⟨[], by simp [stepState, hresp]⟩
      | cons a rest =>
        cases hp : parsePage (a :: rest) with
        | error e => exact ⟨[], by simp [stepState, hresp, hp]⟩
        | ok recs =>
          cases next with
          | none =>
            exact ⟨(if st.write_header then [FileLine.header] else []) ++
              recs.map FileLine.row,
              by simp [stepState, hresp, hp, writeCsv, List.append_assoc]⟩
          | some u =>
            exact ⟨(if st.write_header then [FileLine.header] else []) ++
              recs.map FileLine.row,
              by simp [stepState, hresp, hp, writeCsv, List.append_assoc]⟩

/-- However a task fetch ends, its file is the starting file plus an
appended tail: nothing already persisted is rolled back or deleted. -/
theorem fetchLoop_file_extends (api : Nat → HTTPOutcome) :
    ∀ fuel st, ∃ t, (finalState (fetchLoop api fuel st)).file = st.file ++ t := by
  intro fuel
  induction fuel with
  | zero => exact fun st => ⟨[], by simp [fetchLoop, finalState]⟩
  | succ f ih =>
    intro st
    have h1 := pageStep_file_extends api st
    cases hstep : pageStep api st with
    | stop st' =>
      rw [hstep] at h1
      exact ⟨h1.choose,
        by simpa [fetchLoop, hstep, finalState, stepState] using h1.choose_spec⟩
    | crash st' =>
      rw [hstep] at h1
      exact ⟨h1.choose,
        by simpa [fetchLoop, hstep, finalState, stepState] using h1.choose_spec⟩
    | more st' k =>
      rw [hstep] at h1
      obtain ⟨t1, ht1⟩ := h1
      obtain ⟨t2, ht2⟩ := ih st'
      refine ⟨t1 ++ t2, ?_⟩
      simp [fetchLoop, hstep, ht2, stepState] at ht1 ⊢
      simp [ht1, ht2, List.append_assoc]

/-- Per-group transports of a run whose group-4 task fails terminally on
its second page; every other group returns an empty first page. -/
def apisTerminal : Nat → Nat → HTTPOutcome :=
  fun g => if g = 4 then mockTerminalPage2 else mockEmpty

/-- Per-group transports of the matching fully successful run: group 4
completes normally after one page of the same 100 records. -/
def apisComplete : Nat → Nat → HTTPOutcome :=
  fun g => if g = 4 then mockOnePageNextAbsent else mockEmpty

/-- C4 counterexample: a task whose first page is persisted and whose
second page fetch fails terminally produces exactly the same return
value and file as a task that completes normally with the same records,
and the per-day run totals of the two runs coincide as well — so the
failed task does not report itself as failed, and the run report does
not say which tasks terminated early. -/
theorem C4_no_failure_report_counterexample :
    mockTerminalPage2 1 = HTTPOutcome.httpError ∧
    fetchOutput (fetch_and_append_to_csv mockTerminalPage2 none 5) =
      fetchOutput (fetch_and_append_to_csv mockOnePageNextAbsent none 5) ∧
    process_day apisTerminal 5 = process_day apisComplete 5 :=
  ⟨rfl, by rfl, by rfl⟩

/-- C4 (amended): the already-persisted records of earlier pages are
never rolled back — every fetch only appends to its file — and a task
whose second page fails terminally ends with the first page's 100
records still in the file, returning `total_fetched = 100`; but the
task's result carries no failed/successful status. -/
theorem C4_partial_data_preserved :
    (∀ api fuel st, ∃ t,
      (finalState (fetchLoop api fuel st)).file = st.file ++ t) ∧
    fetch_and_append_to_csv mockTerminalPage2 none 5 =
      FetchResult.done ⟨2, 100, 100, false,
        FileLine.header :: List.replicate 100 (FileLine.row sampleRec),
        [], [0, 100]⟩ :=
  ⟨fun api fuel st => fetchLoop_file_extends api fuel st, by rfl⟩

/-- C7 counterexample: a page whose body is malformed JSON stops the
task, but the task's return value and file are identical to those of a
normally completed task — it is not treated as failed; and a first page
whose JSON object carries no result data ends the task through the
code's ordinary empty-page termination with total 0 and an untouched
file, again indistinguishable from normal completion. -/
theorem C7_no_failure_on_empty_counterexample :
    mockMalformedPage2 1 = HTTPOutcome.success Body.malformed ∧
    fetchOutput (fetch_and_append_to_csv mockMalformedPage2 none 5) =
      fetchOutput (fetch_and_append_to_csv mockOnePageNextAbsent none 5) ∧
    fetchOutput (fetch_and_append_to_csv mockEmpty none 5) = some (0, []) :=
  ⟨rfl, by rfl, by rfl⟩

/-- C7 (amended): a successfully parsed body that is malformed JSON, or
holds an empty results array, makes the pagination loop break at once:
the file and the running total are left unchanged and no failure status
is recorded — the same break that ends a normally completed task. -/
theorem C7_empty_or_malformed_stops :
    (∀ api st, (retryRequest api st.reqCount).response = some Body.malformed →
      ∃ st', pageStep api st = StepResult.stop st' ∧
        st'.file = st.file ∧ st'.total_fetched = st.total_fetched) ∧
    (∀ api st next,
      (retryRequest api st.reqCount).response = some (Body.json [] next) →
      ∃ st', pageStep api st = StepResult.stop st' ∧
        st'.file = st.file ∧ st'.total_fetched = st.total_fetched) := by
  constructor
  · intro api st h
    have hstep : pageStep api st = StepResult.stop
        { st with reqCount := st.reqCount + (retryRequest api st.reqCount).attempts,
                  sleeps := st.sleeps ++ (retryRequest api st.reqCount).sleeps,
                  offsetsRequested := st.offsetsRequested ++ [st.offset] } := by
      simp [pageStep, h]
    exact ⟨_, hstep, rfl, rfl⟩
  · intro api st next h
    have hstep : pageStep api st = StepResult.stop
        { st with reqCount := st.reqCount + (retryRequest api st.reqCount).attempts,
                  sleeps := st.sleeps ++ (retryRequest api st.reqCount).sleeps,
                  offsetsRequested := st.offsetsRequested ++ [st.offset] } := by
      simp [pageStep, h]
    exact ⟨_, hstep, rfl, rfl⟩

/-- Witness for C7 (amended): both hypotheses discharged on concrete
transports answering a fresh task's first request. -/
theorem C7_empty_or_malformed_stops_witness :
    (∃ st', pageStep (fun _ => HTTPOutcome.success Body.malformed)
        (initState none) = StepResult.stop st' ∧
      st'.file = (initState none).file ∧
      st'.total_fetched = (initState none).total_fetched) ∧
    (∃ st', pageStep mockEmpty (initState none) = StepResult.stop st' ∧
      st'.file = (initState none).file ∧
      st'.total_fetched = (initState none).total_fetched) :=
  ⟨C7_empty_or_malformed_stops.1 (fun _ => HTTPOutcome.success Body.malformed)
      (initState none) rfl,
    C7_empty_or_malformed_stops.2 mockEmpty (initState none) none rfl⟩

/-- Witness for C3: a transport whose first answer is a non-429 HTTP
error, starting a fresh task with fuel 1. -/
theorem C3_no_retry_on_terminal_witness :
    retryRequest (fun _ => HTTPOutcome.httpError) 0 = ⟨none, 1, []⟩ ∧
    ∃ st', fetchLoop (fun _ => HTTPOutcome.httpError) 1 (initState none) =
        FetchResult.done st' ∧
      st'.file = (initState none).file ∧
      st'.total_fetched = (initState none).total_fetched ∧
      st'.reqCount = 0 + 1 ∧
      st'.sleeps = (initState none).sleeps := by
  have h := C3_no_retry_on_terminal (fun _ => HTTPOutcome.httpError) 0 (Or.inl rfl)
  exact ⟨h.1, h.2 (initState none) 1 rfl (by decide)⟩

/-- A sequence of CSV append calls during one task: `write_header` is
consumed by the first call and is `False` for every later one. -/
def appendAll (file : List FileLine) (write_header : Bool) :
    List (List ObservationRecord) → List FileLine
  | [] => file
  | b :: bs => appendAll (writeCsv file write_header b) false bs

/-- Header count distributes over append. -/
theorem countHeaders_append (a b : List FileLine) :
    countHeaders (a ++ b) = countHeaders a + countHeaders b := by
  simp [countHeaders, List.countP_append]

/-- Data rows contribute no header line. -/
theorem countHeaders_rows (recs : List ObservationRecord) :
    countHeaders (recs.map FileLine.row) = 0 := by
  induction recs with
  | nil => rfl
  | cons r rs ih => simp [countHeaders, List.countP_cons]

/-- One CSV write adds a header exactly when asked to. -/
theorem countHeaders_writeCsv (f : List FileLine) (wh : Bool)
    (recs : List ObservationRecord) :
    countHeaders (writeCsv f wh recs) =
      countHeaders f + (if wh then 1 else 0) := by
  cases wh <;>
    simp [writeCsv, countHeaders_append, countHeaders_rows, countHeaders,
      List.countP_cons]

/-- Appends with the header flag already consumed add no header. -/
theorem appendAll_false (bs : List (List ObservationRecord)) :
    ∀ file, countHeaders (appendAll file false bs) = countHeaders file := by
  induction bs with
  | nil => intro file; rfl
  | cons b bs ih =>
    intro file
    simp [appendAll, ih, countHeaders_writeCsv]

/-- Invariant quantity of the loop: headers already in the file plus the
one still owed when `write_header` is set. -/
def headerBudget (st : FetchState) : Nat :=
  countHeaders st.file + (if st.write_header then 1 else 0)

/-- Each loop iteration preserves the header budget. -/
theorem pageStep_headerBudget (api : Nat → HTTPOutcome) (st : FetchState) :
    headerBudget (stepState (pageStep api st)) = headerBudget st := by
  unfold pageStep
  cases hresp : (retryRequest api st.reqCount).response with
  | none => simp [stepState, hresp, headerBudget]
  | some b =>
    cases b with
    | malformed => simp [stepState, hresp, headerBudget]
    | json results next =>
      cases results with
      | nil => simp [stepState, hresp, headerBudget]
      | cons a rest =>
        cases hp : parsePage (a :: rest) with
        | error e => simp [stepState, hresp, hp, headerBudget]
        | ok recs =>
          cases next with
          | none =>
            simp [stepState, hresp, hp, headerBudget, countHeaders_writeCsv]
          | some u =>
            simp [stepState, hresp, hp, headerBudget, countHeaders_writeCsv]

/-- The whole loop preserves the header budget. -/
theorem fetchLoop_headerBudget (api : Nat → HTTPOutcome) :
    ∀ fuel st, headerBudget (finalState (fetchLoop api fuel st)) =
      headerBudget st := by
  intro fuel
  induction fuel with
  | zero => intro st; rfl
  | succ f ih =>
    intro st
    have h1 := pageStep_headerBudget api st
    cases hstep : pageStep api st with
    | stop st' => rw [hstep] at h1; simpa [fetchLoop, hstep, finalState, stepState] using h1
    | crash st' => rw [hstep] at h1; simpa [fetchLoop, hstep, finalState, stepState] using h1
    | more st' k =>
      rw [hstep] at h1
      simp [stepState] at h1
      simp [fetchLoop, hstep, ih st', h1]

/-- C5: the header row is written exactly once per task file: any
non-empty sequence of appends to a previously non-existent path yields
exactly one header line; appends with the header already consumed add
none; a task run against a non-existent file ends with at most one
header in it; and a task whose file already existed adds no header at
all. -/
theorem C5_header_written_once :
    (∀ batches, batches ≠ [] →
      countHeaders (appendAll [] true batches) = 1) ∧
    (∀ file batches,
      countHeaders (appendAll file false batches) = countHeaders file) ∧
    (∀ api fuel, countHeaders
      (finalState (fetch_and_append_to_csv api none fuel)).file ≤ 1) ∧
    (∀ api fuel existingFile, countHeaders
        (finalState (fetch_and_append_to_csv api (some existingFile) fuel)).file =
      countHeaders existingFile) := by
  refine ⟨?_, ?_, ?_, ?_⟩
  · intro batches hne
    cases batches with
    | nil => exact absurd rfl hne
    | cons b bs =>
      show countHeaders (appendAll (writeCsv [] true b) false bs) = 1
      rw [appendAll_false, countHeaders_writeCsv]
      rfl
  · intro file batches; exact appendAll_false batches file
  · intro api fuel
    have h := fetchLoop_headerBudget api fuel (initState none)
    have hb : headerBudget (initState none) = 1 := rfl
    rw [hb] at h
    unfold headerBudget at h
    unfold fetch_and_append_to_csv
    omega
  · intro api fuel existingFile
    have h := fetchLoop_headerBudget api fuel (initState (some existingFile))
    obtain ⟨t, ht⟩ := fetchLoop_file_extends api fuel (initState (some existingFile))
    have hb : headerBudget (initState (some existingFile)) =
        countHeaders existingFile := by
      simp [headerBudget, initState]
    rw [hb] at h
    unfold headerBudget at h
    have hfile : (initState (some existingFile)).file = existingFile := rfl
    rw [hfile] at ht
    unfold fetch_and_append_to_csv
    rw [ht] at h ⊢
    rw [countHeaders_append] at h ⊢
    omega

/-- Witness for C5: two batches appended to a fresh path give one header. -/
theorem C5_header_written_once_witness :
    countHeaders (appendAll [] true [[sampleRec], [sampleRec]]) = 1 :=
  C5_header_written_once.1 [[sampleRec], [sampleRec]] (by decide)

/-- Length of a flatMap whose blocks all have length `k`. -/
theorem flatMap_const_length {α β : Type} (f : α → List β) (k : Nat)
    (hk : ∀ a, (f a).length = k) :
    ∀ l : List α, (l.flatMap f).length = l.length * k := by
  intro l
  induction l with
  | nil => simp
  | cons a tl ih =>
    simp [List.flatMap_cons, ih, hk a]
    ring

/-- Indexing into a flatMap with constant block length `k`: position
`i * k + j` lands at entry `j` of block `i`. -/
theorem flatMap_const_getElem {α β : Type} (f : α → List β) (k : Nat)
    (hk : ∀ a, (f a).length = k) :
    ∀ (l : List α) (i j : Nat), j < k →
      (l.flatMap f)[i * k + j]? = (l[i]?).bind (fun a => (f a)[j]?) := by
  intro l
  induction l with
  | nil => intro i j _; simp
  | cons a tl ih =>
    intro i j hj
    cases i with
    | zero =>
      rw [List.flatMap_cons, List.getElem?_append]
      simp [hk a, hj]
    | succ i =>
      have hmul : (i + 1) * k = i * k + k := by ring
      rw [List.flatMap_cons,
        List.getElem?_append_right (by rw [hk a]; omega)]
      have harith : (i + 1) * k + j - (f a).length = i * k + j := by
        rw [hk a]; omega
      rw [harith, ih i j hj]
      simp

/-- The `i`-th processed day is `start + i`. -/
theorem enumDates_getElem (start n i : Nat) (h : i < n) :
    (enumDates start n)[i]? = some (start + i) := by
  simp [enumDates, List.getElem?_map, List.getElem?_range h]

/-- The processed days are pairwise distinct. -/
theorem enumDates_pairwise_ne (start n : Nat) :
    (enumDates start n).Pairwise (· ≠ ·) := by
  rw [enumDates]
  refine List.Pairwise.map _ ?_ ?_ (l := List.range n) (R := (· < ·))
  · intro i1 i2 hlt
    omega
  · exact List.pairwise_lt_range n

/-- C6: for a date span of length `n` starting at `start` and the fixed
ordered group list of size 9, the enumeration yields exactly `n * 9`
tasks, without duplicates and without omissions (a pair is enumerated
iff its day lies in the span and its group is in the list), in
deterministic date-major then group order (the task at position
`i * 9 + j` is day `start + i` with the `j`-th group); an empty span
yields an empty task list. -/
theorem C6_task_enumeration :
    ∀ start n,
      (enumTasks start n).length = n * 9 ∧
      (enumTasks start n).Nodup ∧
      (∀ d g, (d, g) ∈ enumTasks start n ↔
        (start ≤ d ∧ d < start + n ∧ g ∈ INSECT_GROUP_IDS)) ∧
      enumTasks start 0 = [] ∧
      (∀ i j, i < n → j < 9 →
        (enumTasks start n)[i * 9 + j]? =
          (INSECT_GROUP_IDS[j]?).map (fun g => (start + i, g))) := by
  intro start n
  refine ⟨?_, ?_, ?_, by rfl, ?_⟩
  · rw [enumTasks, flatMap_const_length _ 9 (fun a => by rfl)]
    simp [enumDates]
  · rw [enumTasks, List.nodup_flatMap]
    constructor
    · intro d _
      refine List.Nodup.map ?_ (by decide)
      intro g1 g2 he
      exact congrArg Prod.snd he
    · refine (enumDates_pairwise_ne start n).imp ?_
      intro d1 d2 hne
      intro x hx1 hx2
      rw [List.mem_map] at hx1 hx2
      obtain ⟨g1, _, he1⟩ := hx1
      obtain ⟨g2, _, he2⟩ := hx2
      have q1 : d1 = x.1 := congrArg Prod.fst he1
      have q2 : d2 = x.1 := congrArg Prod.fst he2
      exact hne (q1.trans q2.symm)
  · intro d g
    rw [enumTasks, List.mem_flatMap]
    constructor
    · rintro ⟨d0, hd0, hmem⟩
      rw [List.mem_map] at hmem
      obtain ⟨g0, hg0, he⟩ := hmem
      have h1 : d0 = d := congrArg Prod.fst he
      have h2 : g0 = g := congrArg Prod.snd he
      subst h1; subst h2
      rw [enumDates, List.mem_map] at hd0
      obtain ⟨i, hi, he2⟩ := hd0
      rw [List.mem_range] at hi
      exact ⟨by omega, by omega, hg0⟩
    · rintro ⟨h1, h2, h3⟩
      refine ⟨d, ?_, List.mem_map.mpr ⟨g, h3, rfl⟩⟩
      rw [enumDates, List.mem_map]
      exact ⟨d - start, List.mem_range.mpr (by omega), by omega⟩
  · intro i j hi hj
    rw [enumTasks, flatMap_const_getElem _ 9 (fun a => by rfl) _ i j hj,
      enumDates_getElem start n i hi]
    simp

/-- Witness for C6: the order conjunct evaluated on a 2-day span at
position `1 * 9 + 0` (second day, first group). -/
theorem C6_task_enumeration_witness :
    (enumTasks 100 2).length = 2 * 9 ∧
    (enumTasks 100 2)[1 * 9 + 0]? =
      (INSECT_GROUP_IDS[0]?).map (fun g => (100 + 1, g)) :=
  ⟨(C6_task_enumeration 100 2).1,
    (C6_task_enumeration 100 2).2.2.2.2 1 0 (by decide) (by decide)⟩

/-- The one coordinates shape on which normalization raises: a present,
non-null list with exactly one element (`coordinates[1]` is then out of
bounds while the list is truthy). -/
def singletonCoords (obs : RawObs) : Bool :=
  match coordsValue (obs.point.getD default) with
  | some [_] => true
  | _ => false

/-- Whether an `Except` computation returned normally. -/
def exceptOk {α : Type} : Except Unit α → Bool
  | Except.ok _ => true
  | Except.error _ => false

/-- Normalizing one record fails exactly on a singleton coordinates
list. -/
theorem normalizeObs_ok_iff (obs : RawObs) :
    exceptOk (normalizeObs obs) = false ↔ singletonCoords obs = true := by
  unfold singletonCoords
  cases hcv : coordsValue (obs.point.getD default) with
  | none =>
    simp [normalizeObs, hcv, coordsTruthy, exceptOk, Bind.bind, Except.bind]
  | some l =>
    cases l with
    | nil => simp [normalizeObs, hcv, coordsTruthy, exceptOk, Bind.bind, Except.bind]
    | cons a rest =>
      cases rest with
      | nil => simp [normalizeObs, hcv, coordsTruthy, exceptOk, listIndex, Bind.bind, Except.bind]
      | cons b t => simp [normalizeObs, hcv, coordsTruthy, exceptOk, listIndex, Bind.bind, Except.bind]

/-- Building a page of `parsed_data` fails exactly when some record of
the page has singleton coordinates. -/
theorem parsePage_ok_iff (page : List RawObs) :
    exceptOk (parsePage page) = false ↔ page.any singletonCoords = true := by
  induction page with
  | nil => simp [parsePage, exceptOk]
  | cons obs rest ih =>
    rw [List.any_cons]
    cases hn : normalizeObs obs with
    | error e =>
      have h1 : singletonCoords obs = true := by
        rw [← normalizeObs_ok_iff, hn]; rfl
      simp [parsePage, hn, exceptOk, h1, Bind.bind, Except.bind]
    | ok r =>
      have h1 : singletonCoords obs = false := by
        cases hs : singletonCoords obs with
        | false => rfl
        | true =>
          have := (normalizeObs_ok_iff obs).mpr hs
          rw [hn] at this
          exact absurd this (by simp [exceptOk])
      cases hp : parsePage rest with
      | error e => simp [parsePage, hn, hp, exceptOk, h1, Bind.bind, Except.bind, ← ih]
      | ok rs => simp [parsePage, hn, hp, exceptOk, h1, Bind.bind, Except.bind, ← ih]

/-- `.get` on the empty-dict default yields `None`. -/
theorem default_species_name : (default : SpeciesDetail).name = none := rfl

theorem default_species_sci :
    (default : SpeciesDetail).scientific_name = none := rfl

theorem default_detail_name : (default : NameDetail).name = none := rfl

/-- The record `normalizeObs` builds, parameterized by the extracted
coordinate pair. -/
def mkRec (obs : RawObs) (lon lat : Option Int) : ObservationRecord where
  id := obs.id
  common_name := (obs.species_detail.getD default).name
  scientific_name := (obs.species_detail.getD default).scientific_name
  date := obs.date
  time := obs.time
  count := obs.number
  longitude := lon
  latitude := lat
  location := (obs.location_detail.getD default).name
  observer := (obs.user_detail.getD default).name

/-- C8: for every raw record (except the singleton-coordinates shape
that raises, see C9), normalization produces exactly one output record
mapping id, date, time and number through unchanged, reading the name
fields out of the nested objects, and turning every missing nested
field — species_detail, point, coordinates (absent or null),
location_detail, user_detail — into `none` for the corresponding output
fields instead of failing the record. -/
theorem C8_missing_fields_null :
    ∀ obs, singletonCoords obs = false →
      ∃ r, normalizeObs obs = Except.ok r ∧
        r.id = obs.id ∧ r.date = obs.date ∧ r.time = obs.time ∧
        r.count = obs.number ∧
        r.common_name = (obs.species_detail.getD default).name ∧
        r.scientific_name = (obs.species_detail.getD default).scientific_name ∧
        r.location = (obs.location_detail.getD default).name ∧
        r.observer = (obs.user_detail.getD default).name ∧
        (obs.species_detail = none →
          r.common_name = none ∧ r.scientific_name = none) ∧
        (obs.point = none → r.longitude = none ∧ r.latitude = none) ∧
        (obs.point = some ⟨CoordField.absent⟩ →
          r.longitude = none ∧ r.latitude = none) ∧
        (obs.point = some ⟨CoordField.null⟩ →
          r.longitude = none ∧ r.latitude = none) ∧
        (obs.location_detail = none → r.location = none) ∧
        (obs.user_detail = none → r.observer = none) := by
  intro obs hs
  unfold singletonCoords at hs
  cases hcv : coordsValue (obs.point.getD default) with
  | none =>
    refine ⟨mkRec obs none none,
      by simp [normalizeObs, hcv, coordsTruthy, Bind.bind, Except.bind, mkRec],
      rfl, rfl, rfl, rfl, rfl, rfl, rfl, rfl, ?_, ?_, ?_, ?_, ?_, ?_⟩
    · intro h; simp [mkRec, h, default_species_name, default_species_sci, default_detail_name]
    · intro h; rw [h] at hcv; simp [coordsValue] at hcv
    · intro h; rw [h] at hcv; simp [coordsValue] at hcv
    · intro h; exact ⟨rfl, rfl⟩
    · intro h; simp [mkRec, h, default_species_name, default_species_sci, default_detail_name]
    · intro h; simp [mkRec, h, default_species_name, default_species_sci, default_detail_name]
  | some l =>
    cases l with
    | nil =>
      refine ⟨mkRec obs none none,
        by simp [normalizeObs, hcv, coordsTruthy, Bind.bind, Except.bind, mkRec],
        rfl, rfl, rfl, rfl, rfl, rfl, rfl, rfl, ?_, ?_, ?_, ?_, ?_, ?_⟩
      · intro h; simp [mkRec, h, default_species_name, default_species_sci, default_detail_name]
      · intro h; rw [h] at hcv; simp [coordsValue] at hcv
      · intro h; rw [h] at hcv; simp [coordsValue] at hcv
      · intro h; rw [h] at hcv; simp [coordsValue] at hcv
      · intro h; simp [mkRec, h, default_species_name, default_species_sci, default_detail_name]
      · intro h; simp [mkRec, h, default_species_name, default_species_sci, default_detail_name]
    | cons a rest =>
      cases rest with
      | nil => rw [hcv] at hs; simp at hs
      | cons b t =>
        refine ⟨mkRec obs a b,
          by simp [normalizeObs, hcv, coordsTruthy, listIndex,
            Bind.bind, Except.bind, mkRec], rfl, rfl, rfl, rfl, rfl, rfl, rfl,
          rfl, ?_, ?_, ?_, ?_, ?_, ?_⟩
        · intro h; simp [mkRec, h, default_species_name, default_species_sci, default_detail_name]
        · intro h
          rw [h] at hcv
          simp [coordsValue] at hcv
          exact ⟨hcv.1.symm, hcv.2.1.symm⟩
        · intro h
          rw [h] at hcv
          simp [coordsValue] at hcv
          exact ⟨hcv.1.symm, hcv.2.1.symm⟩
        · intro h; rw [h] at hcv; simp [coordsValue] at hcv
        · intro h; simp [mkRec, h, default_species_name, default_species_sci, default_detail_name]
        · intro h; simp [mkRec, h, default_species_name, default_species_sci, default_detail_name]


/-- A raw observation with every optional key absent. -/
def allMissingObs : RawObs := ⟨none, none, none, none, none, none, none, none⟩

/-- Witness for C8: the all-missing record normalizes successfully. -/
theorem C8_missing_fields_null_witness :
    ∃ r, normalizeObs allMissingObs = Except.ok r :=
  ⟨(C8_missing_fields_null allMissingObs rfl).choose,
    (C8_missing_fields_null allMissingObs rfl).choose_spec.1⟩

/-- The totality condition claimed for coordinates: absent, null, or a
list of at least two elements. -/
def claimSafeCoords (obs : RawObs) : Bool :=
  match (obs.point.getD default).coordinates with
  | CoordField.absent => true
  | CoordField.null => true
  | CoordField.list l => decide (2 ≤ l.length)

/-- A raw observation whose coordinates key holds the empty list. -/
def emptyCoordsObs : RawObs :=
  ⟨none, none, none, none, none, some ⟨CoordField.list []⟩, none, none⟩

/-- A raw observation whose coordinates key holds a one-element list. -/
def badSingletonObs : RawObs :=
  ⟨some 7, none, none, none, none, some ⟨CoordField.list [some 5]⟩, none, none⟩

/-- Mock API whose first page is 100 good records and whose second page
contains a well-formed record followed by a singleton-coordinates one. -/
def mockCrashPage2 : Nat → HTTPOutcome
  | 0 => HTTPOutcome.success (Body.json page100 (some ()))
  | _ => HTTPOutcome.success (Body.json [sampleObs, badSingletonObs] (some ()))

/-- C9 counterexample: a record whose `point.coordinates` is the empty
list — neither absent, nor null, nor of length ≥ 2 — still normalizes
successfully (the empty list is falsy, so both coordinate fields become
null), so normalization is total on an input outside the claimed
condition. -/
theorem C9_totality_condition_counterexample :
    claimSafeCoords emptyCoordsObs = false ∧
    normalizeObs emptyCoordsObs =
      Except.ok ⟨none, none, none, none, none, none, none, none, none, none⟩ ∧
    parsePage [emptyCoordsObs] =
      Except.ok [⟨none, none, none, none, none, none, none, none, none, none⟩] :=
  ⟨rfl, rfl, rfl⟩

/-- C9 (amended): normalization fails exactly on records whose
coordinates are a present, non-null list with exactly one element
(absent, null, empty and length-≥-2 lists all normalize); a page
containing such a record fails as a whole, and a task meeting one on its
second page crashes with none of that page's records (not even the
well-formed ones) written, keeping only the first page's rows. -/
theorem C9_singleton_coordinates_crash :
    (∀ obs, exceptOk (normalizeObs obs) = false ↔ singletonCoords obs = true) ∧
    (∀ page, exceptOk (parsePage page) = false ↔
      page.any singletonCoords = true) ∧
    fetch_and_append_to_csv mockCrashPage2 none 5 =
      FetchResult.crashed ⟨2, 100, 102, false,
        FileLine.header :: List.replicate 100 (FileLine.row sampleRec),
        [], [0, 100]⟩ :=
  ⟨normalizeObs_ok_iff, parsePage_ok_iff, by rfl⟩

/-- A `%Y-%m-%d` date always formats to 10 characters. -/
theorem formatDate_length (d : Date) : (formatDate d).length = 10 := by
  simp [formatDate, pad4, pad2]

/-- Any filename of the shape `observations_*.csv` matches the cleanup
glob. -/
theorem matchesGlob_parts (mid : List Char) :
    matchesGlob ("observations_".toList ++ mid ++ ".csv".toList) = true := by
  unfold matchesGlob
  have h1 : ("observations_".toList ++ mid ++ ".csv".toList).length =
      17 + mid.length := by simp; omega
  have h2 : ("observations_".toList ++ mid ++ ".csv".toList).take 13 =
      "observations_".toList := by
    rw [List.take_append_of_le_length (by simp)]
    simp
  have h4 : ("observations_".toList ++ mid).length = 17 + mid.length - 4 := by
    simp; omega
  have h3 : ("observations_".toList ++ mid ++ ".csv".toList).drop
      (17 + mid.length - 4) = ".csv".toList := by
    rw [← h4, List.drop_left]
  rw [h1, h2, h3]
  simp

/-- Every per-task output filename matches the cleanup glob. -/
theorem taskFilename_glob (d : Date) (g : Nat) :
    matchesGlob (taskFilename d g) = true := by
  have he : taskFilename d g = "observations_".toList ++
      (formatDate d ++ '_' :: (Nat.repr g).toList) ++ ".csv".toList := by
    simp [taskFilename]
  rw [he]
  exact matchesGlob_parts _

/-- Length of a per-task filename: the two affixes and the date leave
28 characters plus the printed group id. -/
theorem taskFilename_length (d : Date) (g : Nat) :
    (taskFilename d g).length = 28 + (Nat.repr g).toList.length := by
  simp [taskFilename, formatDate_length]
  omega

/-- C10 counterexample: `observations_backup.csv` matches the cleanup
glob and is deleted by the pre-run cleanup, yet it is not producible by
the per-task naming pattern for any date and any configured group id —
so the cleanup deletes files outside the harvester's own per-task
naming pattern. -/
theorem C10_cleanup_overbroad_counterexample :
    matchesGlob "observations_backup.csv".toList = true ∧
    cleanupFiles ["observations_backup.csv".toList] = [] ∧
    ¬ ∃ d g, g ∈ INSECT_GROUP_IDS ∧
        taskFilename d g = "observations_backup.csv".toList := by
  refine ⟨by decide, by decide, ?_⟩
  rintro ⟨d, g, hg, he⟩
  have hl := congrArg List.length he
  rw [taskFilename_length] at hl
  have hr : ("observations_backup.csv".toList).length = 23 := by decide
  rw [hr] at hl
  fin_cases hg <;> exact absurd hl (by decide)

/-- C10 (amended): the pre-run cleanup deletes exactly the files
matching the glob `observations_*.csv`: every per-task filename matches
the glob (so all prior per-task files are deleted), and a file survives
the cleanup iff it does not match the glob — but the glob is broader
than the per-task naming pattern. -/
theorem C10_cleanup_deletes_glob :
    (∀ d g, matchesGlob (taskFilename d g) = true) ∧
    (∀ files f, f ∈ cleanupFiles files ↔ f ∈ files ∧ matchesGlob f = false) := by
  refine ⟨taskFilename_glob, ?_⟩
  intro files f
  simp [cleanupFiles, List.mem_filter]
